import Mathlib

/-!
Shallow embedding of the order-validation and margin-computation core of the
sdk-go `types` package (src/unnamed/part_000), together with theorems settling
the specification claims about it.

Modelling conventions:
* Go `*big.Int` values (the parsed `BigNum` decimal-string fields) are `Int`.
* Byte slices (`[]byte`, decoded from hex by `common.FromHex`) are `List Nat`,
  each entry one byte.
* `big.Int.Div` is Euclidean division (per the Go `math/big` documentation:
  the quotient such that the remainder is non-negative), i.e. `Int.ediv`.
  `big.Int.Div` panics when the divisor is zero; a Go runtime panic is
  modelled as `none` (for `Option` results) or `VResult.fault`.
* `big.Int.SetBytes` interprets bytes big-endian; `big.Int.Uint64` returns the
  low-order 64 bits of the magnitude, i.e. `% 2 ^ 64` on the natural value.
* `common.HashLength` is 32. Slicing `s[:32]` of a shorter decoded slice is a
  Go slice-bounds panic, modelled as `VResult.fault`.
* The in-place mutation of the two memoized `Order` fields (`OrderType`,
  `IndexPriceRequirement`) is modelled by explicit state passing: functions
  that mutate the order return the updated order, and a typed-error return
  (`VResult.reject`) carries the order state as of that return.
* The keccak-256 `subaccountID` component of `GetDirectionMarketAndSubaccountID`
  is a cryptographic hash of data not inspected further by this core and is
  outside the embedding; the function here returns the direction and marketID
  components.
-/

/-- Big-endian interpretation of a byte list as a natural number,
models `big.Int.SetBytes`. -/
def bytesToNat (bs : List Nat) : Nat :=
  bs.foldl (fun acc b => acc * 256 + b) 0

/-- Models `common.BytesToHash` / `Hash.SetBytes`: keep the last 32 bytes and
left-pad with zero bytes to exactly 32 bytes. -/
def bytesToHash32 (bs : List Nat) : List Nat :=
  let b := if 32 < bs.length then bs.drop (bs.length - 32) else bs
  List.replicate (32 - b.length) 0 ++ b

/-- Source `ScalePermyriad(amount, permyriad) = Div(amount * permyriad, 10000)` where
`Div` is Go `big.Int.Div`, i.e. Euclidean division. -/
def ScalePermyriad (amount permyriad : Int) : Int :=
  Int.ediv (amount * permyriad) 10000

/-- Source `IncrementByScaledPermyriad(amount, permyriad) = amount + ScalePermyriad(amount, permyriad)`. -/
def IncrementByScaledPermyriad (amount permyriad : Int) : Int :=
  amount + ScalePermyriad amount permyriad

/-- The fields of the protobuf `Order`/`SafeSignedOrder` used by the validation
core. Amount fields are the parsed integers of the decimal strings; asset-data
fields are the decoded bytes. -/
structure BaseOrder where
  makerAssetAmount : Int
  takerAssetAmount : Int
  makerFee : Int
  takerFee : Int
  expirationTimeSeconds : Int
  makerAssetData : List Nat
  takerAssetData : List Nat
  makerFeeAssetData : List Nat
deriving DecidableEq, Repr

/-- The derivative `Order` wrapper: the underlying order plus the two memoized
fields `OrderType` (a `uint64`) and `IndexPriceRequirement` (a decimal string),
written during validation. -/
structure Order where
  order : BaseOrder
  OrderType : Nat
  IndexPriceRequirement : String
deriving DecidableEq, Repr

/-- The two `DerivativeMarket` fields read by the validation core, as parsed
integers. -/
structure DerivativeMarket where
  InitialMarginRatio : Int
  IndexPrice : Int
deriving DecidableEq, Repr

/-- Typed errors returned by the validation pipeline. The Go code wraps
`ErrOverLeveragedOrder` with distinct messages for the three over-leverage
sites; the `kind` string distinguishes them. -/
inductive Err where
  | orderExpired : Err
  | overLeveraged (kind : String) : Err
  | unrecognizedOrderType : Err
deriving DecidableEq, Repr

/-- Result of a validation step on an order: a Go runtime panic (`fault`), a
typed error return (`reject`, carrying the order state as of the return, since
the Go code mutates the order in place), or success with the updated order. -/
inductive VResult where
  | fault : VResult
  | reject (e : Err) (o : Order) : VResult
  | ok (o : Order) : VResult
deriving DecidableEq, Repr

/-- Source `Order.ComputeAndSetOrderType`: read the leading 32 bytes
(`common.HashLength`) of the decoded `MakerFeeAssetData` as a big-endian
integer, take its low 64 bits (`big.Int.Uint64`); values other than 0 and 5
are rejected with `ErrUnrecognizedOrderType`, otherwise the value is stored in
`order.OrderType`. Fewer than 32 decoded bytes is a slice-bounds panic. -/
def ComputeAndSetOrderType (o : Order) : VResult :=
  if o.order.makerFeeAssetData.length < 32 then .fault
  else
    let orderTypeNumber := bytesToNat (o.order.makerFeeAssetData.take 32) % 2 ^ 64
    if orderTypeNumber ≠ 0 ∧ orderTypeNumber ≠ 5 then
      .reject .unrecognizedOrderType o
    else
      .ok { o with OrderType := orderTypeNumber }

/-- Source `Order.ComputeContractPriceMarginRequirement`:
`ScalePermyriad(quantity, initialMarginRatio) * price`. -/
def ComputeContractPriceMarginRequirement (o : Order) (m : DerivativeMarket) : Int :=
  ScalePermyriad o.order.takerAssetAmount m.InitialMarginRatio * o.order.makerAssetAmount

/-- Source `Order.ComputeIndexPriceMarginRequirement`: with `price = makerAssetAmount`,
`quantity = takerAssetAmount`, `margin = makerFee`, `pq = price * quantity` and
`alphaQuantity = ScalePermyriad(quantity, initialMarginRatio)`, the requirement
is `Div(margin - pq, alphaQuantity - quantity)` for a long order and
`Div(margin + pq, alphaQuantity + quantity)` for a short order, with `Div`
Go Euclidean division. The decimal string of the result is memoized in
`order.IndexPriceRequirement`. A zero denominator panics (`none`). -/
def ComputeIndexPriceMarginRequirement (o : Order) (isLong : Bool)
    (m : DerivativeMarket) : Option (Int × Order) :=
  let price := o.order.makerAssetAmount
  let quantity := o.order.takerAssetAmount
  let margin := o.order.makerFee
  let pq := price * quantity
  let alphaQuantity := ScalePermyriad quantity m.InitialMarginRatio
  let num := if isLong then margin - pq else margin + pq
  let denom := if isLong then alphaQuantity - quantity else alphaQuantity + quantity
  if denom = 0 then none
  else
    let indexPriceReq := Int.ediv num denom
    some (indexPriceReq, { o with IndexPriceRequirement := toString indexPriceReq })

/-- Source `Order.ComputeOrderMarginHold`:
`Div(IncrementByScaledPermyriad(margin, makerTxFeePermyriad) * remainingQuantity,
originalQuantity)` with `originalQuantity = takerAssetAmount`; a zero
`originalQuantity` panics (`none`). -/
def ComputeOrderMarginHold (o : Order) (remainingQuantity makerTxFeePermyriad : Int) :
    Option Int :=
  let margin := o.order.makerFee
  let scaledMargin := IncrementByScaledPermyriad margin makerTxFeePermyriad
  let originalQuantity := o.order.takerAssetAmount
  if originalQuantity = 0 then none
  else some (Int.ediv (scaledMargin * remainingQuantity) originalQuantity)

/-- Source `Order.DoesValidationPass`: classify the order type, then check expiration
(`expirationTimeSeconds <= blockTime` rejects), then the contract-price margin
requirement (`margin < requirement` rejects), then compute the index-price
margin requirement (memoizing it) and compare it with the market index price
according to the direction. -/
def DoesValidationPass (o : Order) (isLong : Bool) (m : DerivativeMarket)
    (blockTime : Int) : VResult :=
  match ComputeAndSetOrderType o with
  | .fault => .fault
  | .reject e o' => .reject e o'
  | .ok o1 =>
    if o1.order.expirationTimeSeconds ≤ blockTime then .reject .orderExpired o1
    else
      let margin := o1.order.makerFee
      if margin < ComputeContractPriceMarginRequirement o1 m then
        .reject (.overLeveraged "contract-price") o1
      else
        match ComputeIndexPriceMarginRequirement o1 isLong m with
        | none => .fault
        | some (ipmr, o2) =>
          if isLong then
            if m.IndexPrice < ipmr then .reject (.overLeveraged "index-price-long") o2
            else .ok o2
          else
            if ipmr < m.IndexPrice then .reject (.overLeveraged "index-price-short") o2
            else .ok o2

/-- The signature scheme tags. Modelled from the spec: the tag constants live
in the repository's zeroex package, which is not under src/; the spec describes
a closed set of schemes (Invalid, Illegal, EIP712, EthSign, Wallet, Validator,
PreSigned, contract-wallet) with every other tag byte unrecognized. -/
inductive SignatureType where
  | Illegal : SignatureType
  | Invalid : SignatureType
  | EIP712 : SignatureType
  | EthSign : SignatureType
  | Wallet : SignatureType
  | Validator : SignatureType
  | PreSigned : SignatureType
  | EIP1271Wallet : SignatureType
  | Unrecognized : SignatureType
deriving DecidableEq, Repr

/-- Modelled from the spec: the byte value of each scheme tag, following the
zeroex signature-type enumeration order; bytes beyond the closed set are
unrecognized. -/
def toSignatureType (b : Nat) : SignatureType :=
  if b = 0 then .Illegal
  else if b = 1 then .Invalid
  else if b = 2 then .EIP712
  else if b = 3 then .EthSign
  else if b = 4 then .Wallet
  else if b = 5 then .Validator
  else if b = 6 then .PreSigned
  else if b = 7 then .EIP1271Wallet
  else .Unrecognized

/-- Source `isValidSignature`: dispatch on the last byte of the decoded signature as
a scheme tag. An empty signature is an index-out-of-range panic (`none`). -/
def isValidSignature (signature : List Nat) : Option Bool :=
  match signature.getLast? with
  | none => none
  | some b =>
    match toSignatureType b with
    | .Invalid => some false
    | .Illegal => some false
    | .EIP712 => some (signature.length == 66)
    | .EthSign => some (signature.length == 66)
    | .Validator => some (decide (21 ≤ signature.length))
    | .PreSigned => some true
    | .Wallet => some true
    | .EIP1271Wallet => some true
    | .Unrecognized => some false

/-- Source `BaseOrder.GetDirectionMarketAndSubaccountID` (direction and marketID
components): truncate each decoded asset-data field to its leading 32 bytes
(`common.HashLength`) when longer; if the truncated takerAssetData equals the
32 zero bytes, the order is long with marketID from the truncated
makerAssetData, otherwise short with marketID from the truncated
takerAssetData. -/
def GetDirectionMarketAndSubaccountID (makerAssetData takerAssetData : List Nat) :
    Bool × List Nat :=
  let mData := if 32 < makerAssetData.length then makerAssetData.take 32 else makerAssetData
  let tData := if 32 < takerAssetData.length then takerAssetData.take 32 else takerAssetData
  if tData = List.replicate 32 0 then (true, bytesToHash32 mData)
  else (false, bytesToHash32 tData)

/-! ### Concrete fixtures used by counterexamples and witnesses -/

/-- An order fixture with the given price (`makerAssetAmount`), quantity
(`takerAssetAmount`), margin (`makerFee`), expiration time and decoded
`makerFeeAssetData`. -/
def mkBaseOrder (price quantity margin exp : Int) (mfad : List Nat) : BaseOrder :=
  { makerAssetAmount := price, takerAssetAmount := quantity, makerFee := margin,
    takerFee := 0, expirationTimeSeconds := exp, makerAssetData := [],
    takerAssetData := [], makerFeeAssetData := mfad }

/-- The spec's end-to-end example order: margin 150, price 100, quantity 10,
expiration 100, order-type bytes all zero. -/
def oC1 : Order :=
  { order := mkBaseOrder 100 10 150 100 (List.replicate 32 0),
    OrderType := 0, IndexPriceRequirement := "" }

/-- The spec's end-to-end example market: initial margin ratio 1000 permyriad,
index price 95. -/
def mC1 : DerivativeMarket := { InitialMarginRatio := 1000, IndexPrice := 95 }

/-- The state of `oC1` after a fully passing validation run. -/
def oC1accepted : Order := { oC1 with OrderType := 0, IndexPriceRequirement := "95" }

/-- An order with quantity zero: both margin divisions have a zero denominator. -/
def oC2 : Order :=
  { order := mkBaseOrder 100 0 150 100 (List.replicate 32 0),
    OrderType := 0, IndexPriceRequirement := "" }

/-- An order whose 32 order-type bytes encode 2 ^ 248: nonzero as a 256-bit
integer, but with all-zero low 64 bits. -/
def oC5 : Order :=
  { order := mkBaseOrder 100 10 150 100 (1 :: List.replicate 31 0),
    OrderType := 0, IndexPriceRequirement := "" }

/-- A market identical to `mC1` except the index price is 90, below the
index-price margin requirement of the example order. -/
def mC6 : DerivativeMarket := { InitialMarginRatio := 1000, IndexPrice := 90 }

/-- An order whose margin exactly equals its contract-price margin
requirement. -/
def oC8 : Order :=
  { order := mkBaseOrder 100 10 100 100 (List.replicate 32 0),
    OrderType := 0, IndexPriceRequirement := "" }

/-- An order whose `makerFeeAssetData` decodes to fewer than 32 bytes. -/
def oC10 : Order :=
  { order := mkBaseOrder 100 10 150 100 [],
    OrderType := 0, IndexPriceRequirement := "" }

/-! ### Helper lemmas -/

/-- The conditional truncation of the identifier deriver is plain `take 32`. -/
theorem truncate_eq_take32 (l : List Nat) :
    (if 32 < l.length then l.take 32 else l) = l.take 32 := by
  split
  · rfl
  · exact (List.take_of_length_le (Nat.le_of_not_lt (by assumption))).symm

/-- A successful `ComputeAndSetOrderType` changes only the `OrderType` field,
setting it to the low 64 bits of the leading 32 bytes, a value that is 0 or 5. -/
theorem computeAndSetOrderType_ok (o o1 : Order)
    (h : ComputeAndSetOrderType o = .ok o1) :
    o1 = { o with OrderType := bytesToNat (o.order.makerFeeAssetData.take 32) % 2 ^ 64 } ∧
    (o1.OrderType = 0 ∨ o1.OrderType = 5) := by
  simp only [ComputeAndSetOrderType] at h
  split at h
  · exact absurd h (by simp)
  · split at h
    · exact absurd h (by simp)
    · injection h with h2
      subst h2
      refine ⟨rfl, ?_⟩
      rename_i hcond
      by_cases h0 : bytesToNat (o.order.makerFeeAssetData.take 32) % 2 ^ 64 = 0
      · exact Or.inl h0
      · exact Or.inr (by tauto)

/-! ### C3: ScalePermyriad division semantics -/

/-- C3 counterexample: the claim says `ScalePermyriad` truncates toward zero,
but at amount -1, permyriad 5000 the code yields -1 while truncation of
-5000/10000 yields 0. -/
theorem C3_counterexample :
    ScalePermyriad (-1) 5000 = -1 ∧ Int.tdiv ((-1) * 5000) 10000 = 0 := by
  decide

/-- C3 (amended): for all parsed integers, `ScalePermyriad(amount, permyriad)`
is the floor (equivalently, Euclidean) quotient of `amount * permyriad` by
10000 — the unique integer `q` with `10000 * q ≤ amount * permyriad <
10000 * (q + 1)` — and the operation is total. For negative products this
rounds down, not toward zero. -/
theorem C3_scale_permyriad_floor (a p : Int) :
    ScalePermyriad a p = Int.fdiv (a * p) 10000 ∧
    10000 * ScalePermyriad a p ≤ a * p ∧
    a * p < 10000 * (ScalePermyriad a p + 1) := by
  have hdef : ScalePermyriad a p = (a * p) / 10000 := rfl
  refine ⟨(Int.fdiv_eq_ediv (a * p) (by norm_num)).symm, ?_, ?_⟩
  · rw [hdef]; omega
  · rw [hdef]; omega

/-! ### C1: index-price margin requirement -/

/-- C1 counterexample: at the spec's example (long, margin 150, price 100,
quantity 10, initial margin ratio 1000) the code computes `Div(-850, -9) = 95`
(Euclidean) and memoizes "95", while the claimed truncating division gives 94. -/
theorem C1_counterexample :
    ComputeIndexPriceMarginRequirement oC1 true mC1 =
      some (95, { oC1 with IndexPriceRequirement := "95" }) ∧
    Int.tdiv (-850) (-9) = 94 := by
  decide

/-- C1 (amended): for a long order the requirement is the Euclidean quotient of
`margin - price*quantity` by `ScalePermyriad(quantity, initialMarginRatio) -
quantity`, and for a short order of `margin + price*quantity` by
`ScalePermyriad(quantity, initialMarginRatio) + quantity`: the unique integer
`r` whose remainder `num - denom * r` lies in `[0, |denom|)` (this rounds like
truncation only when the remainder would be non-negative anyway; for the spec's
example it yields 95, not 94). The result's decimal string is memoized as the
order's `IndexPriceRequirement`. -/
theorem C1_index_price_requirement_euclidean (o : Order) (m : DerivativeMarket)
    (isLong : Bool) (num denom : Int)
    (hnum : num = if isLong then
        o.order.makerFee - o.order.makerAssetAmount * o.order.takerAssetAmount
      else o.order.makerFee + o.order.makerAssetAmount * o.order.takerAssetAmount)
    (hdenom : denom = if isLong then
        ScalePermyriad o.order.takerAssetAmount m.InitialMarginRatio - o.order.takerAssetAmount
      else
        ScalePermyriad o.order.takerAssetAmount m.InitialMarginRatio + o.order.takerAssetAmount)
    (hd : denom ≠ 0) :
    ComputeIndexPriceMarginRequirement o isLong m =
      some (Int.ediv num denom,
        { o with IndexPriceRequirement := toString (Int.ediv num denom) }) ∧
    0 ≤ num - denom * Int.ediv num denom ∧
    num - denom * Int.ediv num denom < |denom| := by
  refine ⟨?_, ?_, ?_⟩
  · simp only [ComputeIndexPriceMarginRequirement]
    rw [← hnum, ← hdenom, if_neg hd]
  · rw [show Int.ediv num denom = num / denom from rfl, ← Int.emod_def]
    exact Int.emod_nonneg num hd
  · rw [show Int.ediv num denom = num / denom from rfl, ← Int.emod_def]
    exact Int.emod_lt num hd

/-- C1 witness: the amended theorem applied to the spec's example order. -/
theorem C1_witness :
    ComputeIndexPriceMarginRequirement oC1 true mC1 =
      some (Int.ediv (-850) (-9),
        { oC1 with IndexPriceRequirement := toString (Int.ediv (-850) (-9)) }) ∧
    0 ≤ (-850) - (-9) * Int.ediv (-850) (-9) ∧
    (-850) - (-9) * Int.ediv (-850) (-9) < |(-9 : Int)| :=
  C1_index_price_requirement_euclidean oC1 mC1 true (-850) (-9)
    (by decide) (by decide) (by decide)

/-! ### C2: zero denominators -/

/-- C2 counterexample: with quantity 0 both denominators are zero, and the code
propagates the Go division-by-zero runtime panic (modelled as `none`); neither
function has a typed-error channel, so no `DivisionByZero` error can reach the
caller. -/
theorem C2_counterexample :
    ComputeIndexPriceMarginRequirement oC2 true mC1 = none ∧
    ComputeOrderMarginHold oC2 1 15 = none := by
  decide

/-- C2 (amended): a zero denominator in `ComputeIndexPriceMarginRequirement`
(long with `ScalePermyriad(quantity, initialMarginRatio) = quantity`, short
with it equal to `-quantity`) and a zero `originalQuantity` in
`ComputeOrderMarginHold` each propagate the runtime division-by-zero fault
(`none`); no typed `DivisionByZero` error is returned. -/
theorem C2_zero_denominator_fault (o : Order) (m : DerivativeMarket)
    (isLong : Bool) (rq p : Int) :
    ((if isLong then
        ScalePermyriad o.order.takerAssetAmount m.InitialMarginRatio - o.order.takerAssetAmount
      else
        ScalePermyriad o.order.takerAssetAmount m.InitialMarginRatio + o.order.takerAssetAmount) = 0 →
      ComputeIndexPriceMarginRequirement o isLong m = none) ∧
    (o.order.takerAssetAmount = 0 → ComputeOrderMarginHold o rq p = none) := by
  constructor
  · intro hd
    simp only [ComputeIndexPriceMarginRequirement]
    rw [← hd]
    simp [← hd]
  · intro hq
    simp only [ComputeOrderMarginHold]
    rw [if_pos hq]

/-- C2 witness: the amended theorem applied to the zero-quantity order. -/
theorem C2_witness :
    ComputeIndexPriceMarginRequirement oC2 false mC1 = none ∧
    ComputeOrderMarginHold oC2 2 30 = none :=
  ⟨(C2_zero_denominator_fault oC2 mC1 false 2 30).1 (by decide),
   (C2_zero_denominator_fault oC2 mC1 false 2 30).2 (by decide)⟩

/-! ### C4: direction and marketID derivation -/

/-- C4 counterexample: a takerAssetData of 21 bytes whose leading 20 bytes are
zero. Its 20-byte truncation is 20 zero bytes, so the claim requires direction
long, but the code (which truncates at 32 bytes, `common.HashLength`, and
compares against 32 zero bytes) derives direction short. -/
theorem C4_counterexample :
    (List.replicate 20 0 ++ [1]).take 20 = List.replicate 20 0 ∧
    (GetDirectionMarketAndSubaccountID [1] (List.replicate 20 0 ++ [1])).1 = false := by
  decide

/-- C4 (amended): `GetDirectionMarketAndSubaccountID` truncates each asset-data
field to its leading 32 bytes (not 20) when longer; the direction is long
exactly when the truncated takerAssetData equals 32 zero bytes, in which case
the marketID is the truncated makerAssetData (as a 32-byte left-zero-padded
hash), and otherwise the direction is short with marketID the truncated
takerAssetData. -/
theorem C4_direction_market_32 (mk tk : List Nat) :
    ((GetDirectionMarketAndSubaccountID mk tk).1 = true ↔
      tk.take 32 = List.replicate 32 0) ∧
    (GetDirectionMarketAndSubaccountID mk tk).2 =
      bytesToHash32 (if tk.take 32 = List.replicate 32 0 then mk.take 32 else tk.take 32) := by
  unfold GetDirectionMarketAndSubaccountID
  rw [truncate_eq_take32 mk, truncate_eq_take32 tk]
  by_cases h : tk.take 32 = List.replicate 32 0
  · rw [if_pos h, if_pos h]
    exact ⟨⟨fun _ => h, fun _ => rfl⟩, rfl⟩
  · rw [if_neg h, if_neg h]
    exact ⟨⟨fun hf => absurd hf Bool.false_ne_true, fun hc => absurd hc h⟩, rfl⟩

/-! ### C5: order-type classification -/

/-- C5 counterexample: 32 order-type bytes encoding 2 ^ 248, which is neither 0
nor 5 as a 256-bit integer; the claim requires an `UnrecognizedOrderType`
failure, but the code compares only the low 64 bits (`big.Int.Uint64`), which
are zero, and accepts the order with `OrderType` 0. -/
theorem C5_counterexample :
    bytesToNat ((1 :: List.replicate 31 0).take 32) ≠ 0 ∧
    bytesToNat ((1 :: List.replicate 31 0).take 32) ≠ 5 ∧
    ComputeAndSetOrderType oC5 = .ok { oC5 with OrderType := 0 } := by
  refine ⟨by decide, by decide, by decide⟩

/-- C5 (amended): `ComputeAndSetOrderType` interprets the leading 32 bytes of
makerFeeAssetData as a big-endian unsigned integer and dispatches on its low
64 bits: it accepts exactly low-64 values 0 and 5 (memoizing the accepted value
as the order's `OrderType`) and fails with `UnrecognizedOrderType` for every
other low-64 value; 256-bit values that differ only above bit 63 are not
distinguished. -/
theorem C5_order_type_low64 (o : Order) (n : Nat)
    (hlen : 32 ≤ o.order.makerFeeAssetData.length)
    (hn : n = bytesToNat (o.order.makerFeeAssetData.take 32) % 2 ^ 64) :
    (n = 0 ∨ n = 5 → ComputeAndSetOrderType o = .ok { o with OrderType := n }) ∧
    (n ≠ 0 ∧ n ≠ 5 → ComputeAndSetOrderType o = .reject .unrecognizedOrderType o) := by
  subst hn
  constructor
  · intro hv
    simp only [ComputeAndSetOrderType]
    rw [if_neg (by omega)]
    rw [if_neg (by tauto)]
  · intro hv
    simp only [ComputeAndSetOrderType]
    rw [if_neg (by omega)]
    rw [if_pos hv]

/-- C5 witness: the amended theorem applied to the 2 ^ 248 order, whose low 64
bits are zero, and to a rejected variant whose low 64 bits are 7. -/
theorem C5_witness :
    ComputeAndSetOrderType oC5 = .ok { oC5 with OrderType := 0 } :=
  (C5_order_type_low64 oC5 0 (by decide) (by decide)).1 (Or.inl rfl)

/-- Unfolding of `DoesValidationPass` after a successful order-type
classification. -/
theorem doesValidationPass_eq_of_ok (o : Order) (b : Bool) (m : DerivativeMarket)
    (t : Int) (o1 : Order) (h : ComputeAndSetOrderType o = .ok o1) :
    DoesValidationPass o b m t =
      if o1.order.expirationTimeSeconds ≤ t then .reject .orderExpired o1
      else if o1.order.makerFee < ComputeContractPriceMarginRequirement o1 m then
        .reject (.overLeveraged "contract-price") o1
      else
        match ComputeIndexPriceMarginRequirement o1 b m with
        | none => .fault
        | some (ipmr, o2) =>
          if b then
            if m.IndexPrice < ipmr then .reject (.overLeveraged "index-price-long") o2
            else .ok o2
          else
            if ipmr < m.IndexPrice then .reject (.overLeveraged "index-price-short") o2
            else .ok o2 := by
  unfold DoesValidationPass
  rw [h]

/-- Equation form of `ComputeIndexPriceMarginRequirement` with named
numerator and denominator. -/
theorem computeIndexPriceMarginRequirement_eq (o : Order) (b : Bool)
    (m : DerivativeMarket) (num denom : Int)
    (hnum : num = if b then
        o.order.makerFee - o.order.makerAssetAmount * o.order.takerAssetAmount
      else o.order.makerFee + o.order.makerAssetAmount * o.order.takerAssetAmount)
    (hdenom : denom = if b then
        ScalePermyriad o.order.takerAssetAmount m.InitialMarginRatio - o.order.takerAssetAmount
      else
        ScalePermyriad o.order.takerAssetAmount m.InitialMarginRatio + o.order.takerAssetAmount) :
    ComputeIndexPriceMarginRequirement o b m =
      if denom = 0 then none
      else some (Int.ediv num denom,
        { o with IndexPriceRequirement := toString (Int.ediv num denom) }) := by
  subst hnum hdenom
  rfl

/-- A successful `ComputeIndexPriceMarginRequirement` changes only the
`IndexPriceRequirement` field, memoizing the decimal string of the returned
requirement. -/
theorem computeIndexPriceMarginRequirement_some (o : Order) (b : Bool)
    (m : DerivativeMarket) (r : Int) (o' : Order)
    (h : ComputeIndexPriceMarginRequirement o b m = some (r, o')) :
    o' = { o with IndexPriceRequirement := toString r } := by
  rw [computeIndexPriceMarginRequirement_eq o b m _ _ rfl rfl] at h
  split at h <;>
  · split at h
    · simp at h
    · simp only [Option.some_inj, Prod.mk.injEq] at h
      obtain ⟨hr, ho⟩ := h
      rw [← ho, ← hr]

/-! ### C10: short makerFeeAssetData panics -/

/-- C10: for every order whose makerFeeAssetData decodes to fewer than 32
bytes, `ComputeAndSetOrderType` — and therefore `DoesValidationPass`, which
calls it first — hits the Go slice-bounds panic (modelled `fault`) instead of
returning a typed error. -/
theorem C10_short_makerFeeAssetData_fault (o : Order) (b : Bool)
    (m : DerivativeMarket) (t : Int) (h : o.order.makerFeeAssetData.length < 32) :
    ComputeAndSetOrderType o = .fault ∧ DoesValidationPass o b m t = .fault := by
  have h1 : ComputeAndSetOrderType o = .fault := by
    simp only [ComputeAndSetOrderType]
    rw [if_pos h]
  refine ⟨h1, ?_⟩
  unfold DoesValidationPass
  rw [h1]

/-- C10 witness: the empty makerFeeAssetData panics. -/
theorem C10_witness :
    ComputeAndSetOrderType oC10 = .fault ∧ DoesValidationPass oC10 true mC1 10 = .fault :=
  C10_short_makerFeeAssetData_fault oC10 true mC1 10 (by decide)

/-! ### C7: expiration boundary -/

/-- C7: provided order-type classification succeeds, `DoesValidationPass`
rejects with `OrderExpired` exactly when `expirationTimeSeconds <= blockTime`;
the boundary is inclusive (witnessed below at equality). -/
theorem C7_order_expired_iff (o : Order) (b : Bool) (m : DerivativeMarket)
    (t : Int) (o1 : Order) (h : ComputeAndSetOrderType o = .ok o1) :
    (∃ o2, DoesValidationPass o b m t = .reject .orderExpired o2) ↔
      o.order.expirationTimeSeconds ≤ t := by
  have horder : o1.order = o.order := by
    rw [(computeAndSetOrderType_ok o o1 h).1]
  rw [doesValidationPass_eq_of_ok o b m t o1 h, horder]
  by_cases hexp : o.order.expirationTimeSeconds ≤ t
  · rw [if_pos hexp]
    exact iff_of_true ⟨o1, rfl⟩ hexp
  · rw [if_neg hexp]
    refine iff_of_false ?_ hexp
    rintro ⟨o2, h2⟩
    split at h2
    · simp at h2
    · split at h2
      · simp at h2
      · split at h2 <;> split at h2 <;> simp at h2

/-- C7 witness: an order with expiration time equal to the block time is
rejected as expired — the boundary is inclusive. -/
theorem C7_witness :
    (∃ o2, DoesValidationPass oC1 true mC1 100 = .reject .orderExpired o2) ∧
    oC1.order.expirationTimeSeconds = 100 :=
  ⟨(C7_order_expired_iff oC1 true mC1 100 { oC1 with OrderType := 0 }
      (by decide)).mpr (by decide), by decide⟩

/-! ### C8: contract-price margin step -/

/-- C8: provided classification succeeds and the order is not expired,
`DoesValidationPass` rejects at the contract-price step exactly when the margin
(the `makerFee` field) is strictly less than
`ScalePermyriad(quantity, initialMarginRatio) * price`; equality passes
(witnessed below). -/
theorem C8_contract_price_margin_iff (o : Order) (b : Bool) (m : DerivativeMarket)
    (t : Int) (o1 : Order) (h : ComputeAndSetOrderType o = .ok o1)
    (hexp : t < o.order.expirationTimeSeconds) :
    (∃ o2, DoesValidationPass o b m t = .reject (.overLeveraged "contract-price") o2) ↔
      o.order.makerFee <
        ScalePermyriad o.order.takerAssetAmount m.InitialMarginRatio *
          o.order.makerAssetAmount := by
  have horder : o1.order = o.order := by
    rw [(computeAndSetOrderType_ok o o1 h).1]
  have hcp : ComputeContractPriceMarginRequirement o1 m =
      ScalePermyriad o.order.takerAssetAmount m.InitialMarginRatio *
        o.order.makerAssetAmount := by
    unfold ComputeContractPriceMarginRequirement
    rw [horder]
  rw [doesValidationPass_eq_of_ok o b m t o1 h, horder, hcp]
  rw [if_neg (by omega)]
  by_cases hm : o.order.makerFee <
      ScalePermyriad o.order.takerAssetAmount m.InitialMarginRatio *
        o.order.makerAssetAmount
  · rw [if_pos hm]
    exact iff_of_true ⟨o1, rfl⟩ hm
  · rw [if_neg hm]
    refine iff_of_false ?_ hm
    rintro ⟨o2, h2⟩
    split at h2
    · simp at h2
    · split at h2 <;> split at h2 <;> simp at h2

/-- C8 witness: an order whose margin equals its contract-price requirement is
not rejected at the contract-price step. -/
theorem C8_witness :
    ¬ (∃ o2, DoesValidationPass oC8 true mC1 10 =
        .reject (.overLeveraged "contract-price") o2) ∧
    oC8.order.makerFee =
      ScalePermyriad oC8.order.takerAssetAmount mC1.InitialMarginRatio *
        oC8.order.makerAssetAmount := by
  constructor
  · intro hex
    exact absurd
      ((C8_contract_price_margin_iff oC8 true mC1 10 { oC8 with OrderType := 0 }
        (by decide) (by decide)).mp hex) (by decide)
  · decide

/-! ### C6: memoization and partial effects -/

/-- C6 counterexample: the spec's example order validated against a market with
index price 90 is rejected at the index-price step, yet the rejection leaves
both memoized fields written: the carried order has `OrderType` 0 and
`IndexPriceRequirement` "95", while the order started with an empty
`IndexPriceRequirement` — a rejected run does have a partial effect. -/
theorem C6_counterexample :
    DoesValidationPass oC1 true mC6 10 =
      .reject (.overLeveraged "index-price-long")
        { oC1 with OrderType := 0, IndexPriceRequirement := "95" } ∧
    oC1.IndexPriceRequirement = "" := by
  decide

/-- C6 (amended): on a run in which every step passes (an `ok` result) the
memoized fields are both set: the accepted order differs from the input only in
`OrderType` (now 0 or 5) and `IndexPriceRequirement` (now the decimal string of
the computed index-price requirement). Rejection does not guarantee absence of
partial effects: classification already writes `OrderType`, and reaching the
index-price computation writes `IndexPriceRequirement` even when the final
comparison then rejects (see the counterexample). -/
theorem C6_accepted_sets_memo (o : Order) (b : Bool) (m : DerivativeMarket)
    (t : Int) (o2 : Order) (h : DoesValidationPass o b m t = .ok o2) :
    o2.order = o.order ∧ (o2.OrderType = 0 ∨ o2.OrderType = 5) ∧
    ∃ r : Int,
      ComputeIndexPriceMarginRequirement { o with OrderType := o2.OrderType } b m =
        some (r, o2) ∧
      o2.IndexPriceRequirement = toString r := by
  cases hc : ComputeAndSetOrderType o with
  | fault =>
    unfold DoesValidationPass at h
    rw [hc] at h
    simp at h
  | reject e o' =>
    unfold DoesValidationPass at h
    rw [hc] at h
    simp at h
  | ok o1 =>
    obtain ⟨ho1, htype⟩ := computeAndSetOrderType_ok o o1 hc
    rw [doesValidationPass_eq_of_ok o b m t o1 hc] at h
    split at h
    · simp at h
    · split at h
      · simp at h
      · split at h
        · simp at h
        · rename_i ipmr o2' hip
          have ho2 : o2' = o2 := by
            split at h <;> split at h <;> simp_all
          rw [ho2] at hip
          have hmemo := computeIndexPriceMarginRequirement_some o1 b m ipmr o2 hip
          have htype2 : o2.OrderType = o1.OrderType := by rw [hmemo]
          have ho1eq : { o with OrderType := o2.OrderType } = o1 := by
            rw [htype2, ho1]
          refine ⟨?_, ?_, ipmr, ?_, ?_⟩
          · rw [hmemo, ho1]
          · rw [htype2]
            exact htype
          · rw [ho1eq]
            exact hip
          · rw [hmemo]

/-- C6 witness: the example order is accepted against the index price 95
market, with both memoized fields set. -/
theorem C6_witness :
    oC1accepted.order = oC1.order ∧
    (oC1accepted.OrderType = 0 ∨ oC1accepted.OrderType = 5) ∧
    ∃ r : Int,
      ComputeIndexPriceMarginRequirement
          { oC1 with OrderType := oC1accepted.OrderType } true mC1 =
        some (r, oC1accepted) ∧
      oC1accepted.IndexPriceRequirement = toString r :=
  C6_accepted_sets_memo oC1 true mC1 10 oC1accepted (by decide)

/-! ### C9: signature format dispatch -/

/-- Reduction of `isValidSignature` once the last byte is known. -/
theorem isValidSignature_eq_of_getLast (sig : List Nat) (b : Nat)
    (h : sig.getLast? = some b) :
    isValidSignature sig =
      match toSignatureType b with
      | .Invalid => some false
      | .Illegal => some false
      | .EIP712 => some (sig.length == 66)
      | .EthSign => some (sig.length == 66)
      | .Validator => some (decide (21 ≤ sig.length))
      | .PreSigned => some true
      | .Wallet => some true
      | .EIP1271Wallet => some true
      | .Unrecognized => some false := by
  unfold isValidSignature
  rw [h]

/-- C9: `isValidSignature` dispatches on the last byte of the decoded signature
as a scheme tag: false for Invalid and Illegal; for EIP712 and EthSign true
exactly when the total length is 66 bytes; for Validator true exactly when the
total length is at least 21 bytes; true for PreSigned, Wallet and the
contract-wallet scheme; false for every unrecognized tag. -/
theorem C9_signature_dispatch (sig : List Nat) (b : Nat)
    (h : sig.getLast? = some b) :
    ((toSignatureType b = .Invalid ∨ toSignatureType b = .Illegal) →
      isValidSignature sig = some false) ∧
    ((toSignatureType b = .EIP712 ∨ toSignatureType b = .EthSign) →
      (isValidSignature sig = some true ↔ sig.length = 66)) ∧
    (toSignatureType b = .Validator →
      (isValidSignature sig = some true ↔ 21 ≤ sig.length)) ∧
    ((toSignatureType b = .PreSigned ∨ toSignatureType b = .Wallet ∨
        toSignatureType b = .EIP1271Wallet) →
      isValidSignature sig = some true) ∧
    (toSignatureType b = .Unrecognized → isValidSignature sig = some false) := by
  rw [isValidSignature_eq_of_getLast sig b h]
  refine ⟨?_, ?_, ?_, ?_, ?_⟩
  · rintro (ht | ht) <;> rw [ht]
  · rintro (ht | ht) <;> rw [ht] <;> simp
  · intro ht
    rw [ht]
    simp
  · rintro (ht | ht | ht) <;> rw [ht]
  · intro ht
    rw [ht]

/-- C9 witness: a 66-byte signature tagged EIP712 is accepted; dropping one
byte is rejected; a 21-byte Validator-tagged signature is accepted. -/
theorem C9_witness :
    isValidSignature (List.replicate 65 0 ++ [2]) = some true :=
  ((C9_signature_dispatch (List.replicate 65 0 ++ [2]) 2
      (by decide)).2.1 (Or.inl (by decide))).mpr (by decide)
